import Mathlib

/-
Shallow embedding of `src/index.ts` of the dobleamarilla/cfd repository: an
operator-assisted disaster-recovery monitor for a point-of-sale MongoDB
database.  External effects (the MongoDB driver, `execSync` subprocesses,
`writeFileSync`, timers) are modelled by explicit outcome parameters
("worlds") and by traces that record which external calls were issued with
which arguments.  All definitions are executable.
-/

deriving instance DecidableEq for Except

namespace CFD

/-- Lifecycle status of a catalog entry, the `status` field of
`BackupRecord` in `index.ts` (one of "created" | "restored" | "failed"). -/
inductive Status where
  | created
  | restored
  | failed
deriving DecidableEq, Repr

/-- A catalog document of the `backups` collection (`interface BackupRecord`
in `index.ts`).  `id` models the MongoDB `_id`; for driver-assigned ObjectIds
it grows with insertion order, and the list order of a catalog value below is
its insertion (natural) order. `createdAt` is a millisecond epoch instant. -/
structure BackupRecord where
  id : Nat
  filename : String
  path : String
  createdAt : Int
  sizeMB : Int
  status : Status
deriving DecidableEq, Repr

/-- Boolean test used to model the query filter { status: "created" }. -/
def Status.isCreated : Status → Bool
  | .created => true
  | _ => false

/-- JavaScript string-or-default idiom `process.env.X || dflt` from the
CONFIG literal: an unset variable, and also a set-but-empty one (empty
strings are falsy), yields the default. -/
def jsOrStr (v : Option String) (dflt : String) : String :=
  match v with
  | some s => if s = "" then dflt else s
  | none => dflt

/-- Numeric value of a list of decimal digit characters. -/
def digitsVal (cs : List Char) : Nat :=
  cs.foldl (fun n c => n * 10 + (c.toNat - 48)) 0

/-- Modelled from the ECMAScript `parseInt` applied with no radix argument,
as in `parseInt(process.env.CHECK_INTERVAL || "300000")`: leading whitespace
is skipped, an optional sign is read, and the longest leading run of decimal
digits is converted; when no digit is found the result is NaN, encoded here
as `none`.  The hexadecimal `0x` auto-detection branch of `parseInt` is not
modelled; no claim exercises it. -/
def parseIntJS (s : String) : Option Int :=
  let cs := s.toList.dropWhile (fun c => c.isWhitespace)
  let signed : Bool × List Char :=
    match cs with
    | '-' :: rest => (true, rest)
    | '+' :: rest => (false, rest)
    | rest => (false, rest)
  let ds := signed.2.takeWhile (fun c => c.isDigit)
  if ds.isEmpty then none
  else some (if signed.1 then -(digitsVal ds : Int) else (digitsVal ds : Int))

/-- The process environment as read by the CONFIG literal.  The last two
fields exist so that setting them can be talked about; the source never
reads them. -/
structure Env where
  MONGO_URI : Option String := none
  DOCKER_VOLUME : Option String := none
  CONTAINER_NAME : Option String := none
  BACKUP_DIR : Option String := none
  CHECK_INTERVAL : Option String := none
  SALES_COLLECTION : Option String := none
  BACKUPS_COLLECTION : Option String := none
deriving DecidableEq, Repr

/-- The CONFIG object of `index.ts`.  `CHECK_INTERVAL` is `Option Int`
because `parseInt` can produce NaN (`none`). -/
structure Config where
  MONGO_URI : String
  DOCKER_VOLUME : String
  CONTAINER_NAME : String
  BACKUP_DIR : String
  CHECK_INTERVAL : Option Int
  SALES_COLLECTION : String
  BACKUPS_COLLECTION : String
deriving DecidableEq, Repr

/-- Splitting on the path separator, accumulating the current segment in
reverse.  Structurally recursive so that concrete paths evaluate inside
proofs. -/
def splitSlashAux : List Char → List Char → List String
  | [], acc => [String.mk acc.reverse]
  | c :: cs, acc =>
    if c = '/' then String.mk acc.reverse :: splitSlashAux cs []
    else splitSlashAux cs (c :: acc)

/-- Split a string on "/" (same result as splitting on a single-character
separator). -/
def splitSlash (s : String) : List String := splitSlashAux s.toList []

/-- Whether the string begins with the path separator. -/
def startsWithSlash (s : String) : Bool :=
  match s.toList with
  | '/' :: _ => true
  | _ => false

/-- Whether the string ends with the path separator. -/
def endsWithSlash (s : String) : Bool :=
  match s.toList.getLast? with
  | some '/' => true
  | _ => false

/-- Join segments with the path separator. -/
def joinSlash : List String → String
  | [] => ""
  | [s] => s
  | s :: rest => s ++ "/" ++ joinSlash rest

/-- One folding step of POSIX path normalization: drop empty and "."
segments, resolve ".." against the segment stack. -/
def normStep (isAbs : Bool) (stack : List String) (seg : String) : List String :=
  if seg = "" ∨ seg = "." then stack
  else if seg = ".." then
    match stack with
    | [] => if isAbs then [] else [".."]
    | top :: rest => if top = ".." then seg :: stack else rest
  else seg :: stack

/-- Modelled from Node's `path.normalize` (POSIX): collapse repeated
separators, resolve "." and ".." segments, keep a trailing separator. -/
def normalizePath (p : String) : String :=
  if p = "" then "."
  else
    let isAbs := startsWithSlash p
    let stack := (splitSlash p).foldl (normStep isAbs) []
    let body := joinSlash stack.reverse
    let res := (if isAbs then "/" else "") ++ body
    let res := if res = "" then "." else res
    if endsWithSlash p && !endsWithSlash res then res ++ "/" else res

/-- Modelled from Node's `path.join` (POSIX) for two segments, as used by
`join(CONFIG.BACKUP_DIR, backupFile)` and `join(homedir(), ...)`: empty
arguments are dropped, the rest joined with "/" and normalized. -/
def pathJoin (a b : String) : String :=
  let parts := ([a, b]).filter (fun s => s ≠ "")
  if parts.isEmpty then "." else normalizePath (joinSlash parts)

/-- The CONFIG literal of `index.ts`, as a function of the home directory
(`homedir()`) and the process environment.  `SALES_COLLECTION` and
`BACKUPS_COLLECTION` are fixed string literals in the source; no
environment variable is consulted for them. -/
def mkConfig (home : String) (env : Env) : Config where
  MONGO_URI := jsOrStr env.MONGO_URI "mongodb://localhost:27017/tocgame"
  DOCKER_VOLUME := jsOrStr env.DOCKER_VOLUME "mongo_data"
  CONTAINER_NAME := jsOrStr env.CONTAINER_NAME "mongodb"
  BACKUP_DIR := jsOrStr env.BACKUP_DIR (pathJoin home "backups/tocgamedb")
  CHECK_INTERVAL := parseIntJS (jsOrStr env.CHECK_INTERVAL "300000")
  SALES_COLLECTION := "sales"
  BACKUPS_COLLECTION := "backups"

/-- Evaluation of the CONFIG literal as the startup step it is part of.  The
source performs no validation of any option and `parseInt` yields NaN rather
than throwing, so this step has no failing path: it always returns the
config (an unparsable CHECK_INTERVAL surfaces as `CHECK_INTERVAL = none`,
not as an error). -/
def configParse (home : String) (env : Env) : Except String Config :=
  .ok (mkConfig home env)

/-- The window cutoff `new Date(Date.now() - CONFIG.CHECK_INTERVAL)` computed
by `checkRecentSales`.  Subtracting NaN gives NaN, i.e. an invalid date,
encoded as `none`. -/
def salesCutoff (nowMs : Int) (cfg : Config) : Option Int :=
  cfg.CHECK_INTERVAL.map (fun w => nowMs - w)

/-- Outcome of an `execSync` call: the child exited with a code, or it could
not be launched at all. `execSync` returns normally only on exit code 0 and
throws otherwise. -/
inductive ExecOutcome where
  | exited (code : Nat)
  | spawnError
deriving DecidableEq, Repr

/-- `showDialog` of `index.ts`: runs zenity with `execSync` and returns true
when it returns normally (exit 0, the operator answered "Sí"); every throw —
non-zero exit (the operator answered "No") as well as a spawn failure (zenity
missing) — is swallowed by the catch-all and mapped to false. -/
def showDialog (o : ExecOutcome) : Bool :=
  match o with
  | .exited 0 => true
  | _ => false

/-- One step of the fold modelling the MongoDB query
`findOne({status:"created"}, {sort:{createdAt:-1}})`: keep the current best
unless the next record is strictly newer, so among records with equal
`createdAt` the earliest one in collection order is kept — exactly what a
stable descending sort on the single key `createdAt` returns first.  The
query names no secondary sort key, so identity plays no role. -/
def pickLatest (best : Option BackupRecord) (r : BackupRecord) : Option BackupRecord :=
  match best with
  | none => some r
  | some b => if b.createdAt < r.createdAt then some r else some b

/-- The catalog query of `restoreLatestBackup`: the first result of sorting
the records with status "created" by `createdAt` descending, `none` when no
such record exists.  The list argument is the collection in insertion
(natural) order. -/
def latestCreated (catalog : List BackupRecord) : Option BackupRecord :=
  (catalog.filter (fun r => r.status.isCreated)).foldl pickLatest none

/-- The selection rule in the words of the specification (section 3): the
record with the greatest `created_at` among those with status `created`,
ties on `created_at` broken by catalog identity, the largest identity
winning.  Kept separately from `latestCreated` so the two can be compared. -/
def latestCreatedSpecRule (catalog : List BackupRecord) : Option BackupRecord :=
  catalog.foldl
    (fun best r =>
      if r.status.isCreated then
        match best with
        | none => some r
        | some b =>
          if b.createdAt < r.createdAt ∨ (b.createdAt = r.createdAt ∧ b.id < r.id)
          then some r else some b
      else best)
    none

/-- Wall-clock instant broken into calendar fields, the input of the
`format(new Date(), "yyyyMMdd-HHmmss")` call of `createVolumeBackup`. -/
structure DateTime where
  year : Nat
  month : Nat
  day : Nat
  hour : Nat
  minute : Nat
  second : Nat
deriving DecidableEq, Repr

/-- Two-digit zero padding, as produced by the date-fns tokens MM dd HH mm ss. -/
def pad2 (n : Nat) : String :=
  if n < 10 then "0" ++ toString n else toString n

/-- Four-digit zero padding, as produced by the date-fns token yyyy. -/
def pad4 (n : Nat) : String :=
  if n < 10 then "000" ++ toString n
  else if n < 100 then "00" ++ toString n
  else if n < 1000 then "0" ++ toString n
  else toString n

/-- Modelled from date-fns `format(t, "yyyyMMdd-HHmmss")` in local time. -/
def formatTimestamp (t : DateTime) : String :=
  pad4 t.year ++ pad2 t.month ++ pad2 t.day ++ "-" ++
    pad2 t.hour ++ pad2 t.minute ++ pad2 t.second

/-- Whether an Except value is an error, i.e. whether the modelled call threw. -/
def isError {ε α : Type} : Except ε α → Bool
  | .error _ => true
  | .ok _ => false

/-- Outcomes of the external calls made by one `createVolumeBackup`
invocation: the `docker exec ... mongodump` subprocess, the `writeFileSync`,
the `du -m` subprocess of `getFileStats` (with its stdout text), and the
catalog `insertOne`. -/
structure CaptureWorld where
  dumpOk : Bool
  writeOk : Bool
  duOk : Bool
  duOut : String
  insertOk : Bool
deriving DecidableEq, Repr

/-- Failure points of `createVolumeBackup` / `registerBackup`.  The first
two are the spec's CaptureFailed causes (dump subprocess, file write); the
last two correspond to its CatalogUnavailable (stats or insert after the
file exists). -/
inductive CaptureError where
  | dumpFailed
  | writeFailed
  | statsFailed
  | insertFailed
deriving DecidableEq, Repr

/-- A document as passed to `insertOne` by `registerBackup`, i.e. a catalog
record before the driver assigns an `_id`. -/
structure BackupInsert where
  filename : String
  path : String
  createdAt : Int
  sizeMB : Int
  status : Status
deriving DecidableEq, Repr

/-- Effect trace and result of one `createVolumeBackup` invocation.
`writes` records `writeFileSync` targets (attempted, possibly partial),
`deletes` records file-deletion calls — the source contains none, so the
branches below never populate it — and `inserts` records `insertOne`
documents. -/
structure CaptureResult where
  result : Except CaptureError String
  writes : List String
  deletes : List String
  inserts : List BackupInsert
deriving Repr

/-- Modelled from JavaScript String.prototype.trim: strip whitespace from
both ends. -/
def trimJS (s : String) : String :=
  String.mk
    (((s.toList.dropWhile (fun c => c.isWhitespace)).reverse.dropWhile
        (fun c => c.isWhitespace)).reverse)

/-- `getFileStats` of `index.ts`: `parseInt(du -m output) || 0`; NaN (and a
parsed 0, which is falsy anyway) collapse to 0. -/
def getFileStats (duOk : Bool) (duOut : String) : Except CaptureError Int :=
  if duOk then .ok ((parseIntJS (trimJS duOut)).getD 0) else .error .statsFailed

/-- `registerBackup` of `index.ts`: measure the file, then insert one
catalog document with status "created" and `createdAt` taken at insertion
time (`new Date()` at line 141).  Returns the size and the inserted
documents. -/
def registerBackup (w : CaptureWorld) (filename path : String) (insertAt : Int) :
    Except CaptureError (Int × List BackupInsert) :=
  match getFileStats w.duOk w.duOut with
  | .error e => .error e
  | .ok sizeMB =>
    if w.insertOk
    then .ok (sizeMB, [⟨filename, path, insertAt, sizeMB, Status.created⟩])
    else .error .insertFailed

/-- `createVolumeBackup` of `index.ts`: build the timestamped path, run the
dump, write the archive, register it in the catalog, and return the path.
`now` is the `new Date()` used for the filename; `insertAt` the `new Date()`
used for the catalog record.  Every throw is logged and rethrown by the
catch block; no branch deletes a file. -/
def createVolumeBackup (cfg : Config) (w : CaptureWorld) (now : DateTime)
    (insertAt : Int) : CaptureResult :=
  let backupFile := "backup-" ++ formatTimestamp now ++ ".gz"
  let backupPath := pathJoin cfg.BACKUP_DIR backupFile
  if !w.dumpOk then
    { result := .error .dumpFailed, writes := [], deletes := [], inserts := [] }
  else if !w.writeOk then
    { result := .error .writeFailed, writes := [backupPath], deletes := [], inserts := [] }
  else
    match registerBackup w backupFile backupPath insertAt with
    | .error e =>
      { result := .error e, writes := [backupPath], deletes := [], inserts := [] }
    | .ok res =>
      { result := .ok backupPath, writes := [backupPath], deletes := [],
        inserts := res.2 }

/-- Outcomes of the external calls of one `restoreLatestBackup` invocation:
`docker stop`, the one-shot `docker run ... mongorestore`, the catalog
`updateOne`, and `docker start`. -/
structure RestoreWorld where
  stopOk : Bool
  restoreOk : Bool
  updateOk : Bool
  startOk : Bool
deriving DecidableEq, Repr

/-- Failure points of `restoreLatestBackup`, in the order the source can hit
them. -/
inductive RestoreError where
  | noSnapshot
  | stopFailed
  | restoreFailed
  | updateFailed
  | startFailed
deriving DecidableEq, Repr

/-- Effect trace and result of one `restoreLatestBackup` invocation.
`stopCalls`, `restoreRunCalls` and `startCalls` count the issued container
commands; `statusUpdates` records the `updateOne` status writes that were
applied; `finalCatalog` is the catalog after them. -/
structure RestoreResult where
  result : Except RestoreError Unit
  stopCalls : Nat
  restoreRunCalls : Nat
  startCalls : Nat
  statusUpdates : List (Nat × Status)
  finalCatalog : List BackupRecord
deriving Repr

/-- The `updateOne({_id: id}, {$set: {status}})` write: set the status of
the record with the given identity. -/
def setStatus (catalog : List BackupRecord) (id : Nat) (st : Status) :
    List BackupRecord :=
  catalog.map (fun r => if r.id = id then { r with status := st } else r)

/-- `restoreLatestBackup` of `index.ts`: pick the newest "created" record
(throwing when there is none), stop the database container, wait 3 seconds,
run the one-shot restore container, mark the record "restored", restart the
container.  Each `execSync` throw propagates at the point it occurs (the
catch block logs and rethrows), so later steps are not reached. -/
def restoreLatestBackup (w : RestoreWorld) (catalog : List BackupRecord) :
    RestoreResult :=
  match latestCreated catalog with
  | none =>
    { result := .error .noSnapshot, stopCalls := 0, restoreRunCalls := 0,
      startCalls := 0, statusUpdates := [], finalCatalog := catalog }
  | some b =>
    if !w.stopOk then
      { result := .error .stopFailed, stopCalls := 1, restoreRunCalls := 0,
        startCalls := 0, statusUpdates := [], finalCatalog := catalog }
    else if !w.restoreOk then
      { result := .error .restoreFailed, stopCalls := 1, restoreRunCalls := 1,
        startCalls := 0, statusUpdates := [], finalCatalog := catalog }
    else if !w.updateOk then
      { result := .error .updateFailed, stopCalls := 1, restoreRunCalls := 1,
        startCalls := 0, statusUpdates := [], finalCatalog := catalog }
    else if !w.startOk then
      { result := .error .startFailed, stopCalls := 1, restoreRunCalls := 1,
        startCalls := 1, statusUpdates := [(b.id, Status.restored)],
        finalCatalog := setStatus catalog b.id Status.restored }
    else
      { result := .ok (), stopCalls := 1, restoreRunCalls := 1, startCalls := 1,
        statusUpdates := [(b.id, Status.restored)],
        finalCatalog := setStatus catalog b.id Status.restored }

/-- External inputs of one iteration of the `startMonitoring` loop.
`probe` is the awaited result of `checkRecentSales` (`none` when the
database call rejected, a ProbeError); `dialog` is the zenity subprocess
outcome; `catalog`, `rw` and `cw` feed the action the branch takes; `now`
and `nowMs` are the wall clock readings a capture would make. -/
structure TickWorld where
  probe : Option Bool
  dialog : ExecOutcome
  catalog : List BackupRecord
  rw : RestoreWorld
  cw : CaptureWorld
  now : DateTime
  nowMs : Int
deriving Repr

/-- Observable behaviour of one iteration of the `startMonitoring` loop:
how many times the dialog was shown and each action invoked, the duration
handed to `delay` (`none` models a NaN CHECK_INTERVAL), whether control
reaches the next iteration (the catch-all swallows every error, so it
always does), the catalog after the tick and the capture inserts. -/
structure TickTrace where
  dialogCalls : Nat
  captureCalls : Nat
  restoreCalls : Nat
  sleep : Option Int
  continues : Bool
  finalCatalog : List BackupRecord
  inserts : List BackupInsert
deriving Repr

/-- One iteration of the `while (true)` body of `startMonitoring`: probe,
then on a quiet probe ask the dialog and run exactly one of restore
(dialog true) or capture (dialog false); sleep CHECK_INTERVAL on success
and 10000 ms in the catch block. -/
def monitorTick (cfg : Config) (w : TickWorld) : TickTrace :=
  match w.probe with
  | none =>
    { dialogCalls := 0, captureCalls := 0, restoreCalls := 0,
      sleep := some 10000, continues := true, finalCatalog := w.catalog,
      inserts := [] }
  | some true =>
    { dialogCalls := 0, captureCalls := 0, restoreCalls := 0,
      sleep := cfg.CHECK_INTERVAL, continues := true,
      finalCatalog := w.catalog, inserts := [] }
  | some false =>
    if showDialog w.dialog then
      let r := restoreLatestBackup w.rw w.catalog
      { dialogCalls := 1, captureCalls := 0, restoreCalls := 1,
        sleep := if isError r.result then some 10000 else cfg.CHECK_INTERVAL,
        continues := true, finalCatalog := r.finalCatalog, inserts := [] }
    else
      let c := createVolumeBackup cfg w.cw w.now w.nowMs
      { dialogCalls := 1, captureCalls := 1, restoreCalls := 0,
        sleep := if isError c.result then some 10000 else cfg.CHECK_INTERVAL,
        continues := true, finalCatalog := w.catalog, inserts := c.inserts }

/-- Whether the try block of the tick throws, i.e. whether the catch branch
of `startMonitoring` runs: the probe rejected, or the action taken threw.
`showDialog` itself swallows every dialog failure, so the dialog step never
contributes a throw. -/
def tickThrows (cfg : Config) (w : TickWorld) : Bool :=
  match w.probe with
  | none => true
  | some true => false
  | some false =>
    if showDialog w.dialog
    then isError (restoreLatestBackup w.rw w.catalog).result
    else isError (createVolumeBackup cfg w.cw w.now w.nowMs).result

/-! Concrete fixtures used by witnesses and counterexamples. -/

/-- Config obtained with an empty environment and home directory "/h". -/
def cfgDefault : Config := mkConfig "/h" {}

/-- The injected clock instant 2024-01-15 12:00:00. -/
def dt0 : DateTime := ⟨2024, 1, 15, 12, 0, 0⟩

/-- Capture world in which every external call succeeds and du prints 7. -/
def cwOk : CaptureWorld := ⟨true, true, true, "7", true⟩

/-- Restore world in which every external call succeeds. -/
def rwOk : RestoreWorld := ⟨true, true, true, true⟩

/-- Restore world in which only the mongorestore subprocess fails. -/
def rwRestoreFail : RestoreWorld := ⟨true, false, true, true⟩

/-- Capture world in which the mongodump subprocess fails. -/
def cwDumpFail : CaptureWorld := ⟨false, true, true, "7", true⟩

/-- Catalog entry with identity 1, status created, createdAt 5. -/
def recA : BackupRecord := ⟨1, "a.gz", "/b/a.gz", 5, 0, Status.created⟩

/-- Catalog entry with identity 2, status created and the same createdAt 5. -/
def recB : BackupRecord := ⟨2, "b.gz", "/b/b.gz", 5, 0, Status.created⟩

/-- Tick world: quiet probe, dialog tool unlaunchable, all actions succeed. -/
def twUnavailable : TickWorld :=
  { probe := some false, dialog := .spawnError, catalog := [], rw := rwOk,
    cw := cwOk, now := dt0, nowMs := 0 }

/-- Tick world: quiet probe and a Yes answer (zenity exit 0). -/
def twYes : TickWorld := { twUnavailable with dialog := .exited 0 }

/-- Tick world: the activity probe found recent sales. -/
def twActive : TickWorld := { twUnavailable with probe := some true }

/-- Tick world: the activity probe rejected (ProbeError). -/
def twProbeFail : TickWorld := { twUnavailable with probe := none }

/-- Environment that sets SALES_COLLECTION, which the source never reads. -/
def envSalesOverride : Env := { SALES_COLLECTION := some "ventas" }

/-- Environment overriding every variable the source does read. -/
def envAll : Env :=
  { MONGO_URI := some "mongodb://db:27017/x", DOCKER_VOLUME := some "vol",
    CONTAINER_NAME := some "cname", BACKUP_DIR := some "/b",
    CHECK_INTERVAL := some "60000" }

/-- Environment whose CHECK_INTERVAL does not parse as a number. -/
def envNaN : Env := { CHECK_INTERVAL := some "abc" }

/-- Config whose BACKUP_DIR was overridden to a value with a trailing slash. -/
def cfgTrailingSlash : Config := mkConfig "/h" { BACKUP_DIR := some "d/" }

/-! Auxiliary lemmas about the catalog query. -/

/-- A status passes the query filter exactly when it is `created`. -/
lemma isCreated_iff (s : Status) : s.isCreated = true ↔ s = Status.created := by
  cases s <;> simp [Status.isCreated]

/-- Folding `pickLatest` from a seed yields a record drawn from the seed or
the list whose `createdAt` dominates the seed and every list element. -/
lemma foldl_pickLatest_some (l : List BackupRecord) :
    ∀ b : BackupRecord, ∃ c, l.foldl pickLatest (some b) = some c ∧
      (c = b ∨ c ∈ l) ∧ b.createdAt ≤ c.createdAt ∧
      ∀ r ∈ l, r.createdAt ≤ c.createdAt := by
  induction l with
  | nil =>
    intro b
    exact ⟨b, rfl, Or.inl rfl, le_refl _, by simp⟩
  | cons x xs ih =>
    intro b
    by_cases h : b.createdAt < x.createdAt
    · obtain ⟨c, hfold, hmem, hle, hall⟩ := ih x
      refine ⟨c, ?_, ?_, le_trans (le_of_lt h) hle, ?_⟩
      · simpa [pickLatest, h] using hfold
      · rcases hmem with h1 | h1
        · exact Or.inr (by simp [h1])
        · exact Or.inr (List.mem_cons_of_mem _ h1)
      · intro r hr
        rcases List.mem_cons.mp hr with rfl | h2
        · exact hle
        · exact hall r h2
    · obtain ⟨c, hfold, hmem, hle, hall⟩ := ih b
      refine ⟨c, ?_, ?_, hle, ?_⟩
      · simpa [pickLatest, h] using hfold
      · rcases hmem with h1 | h1
        · exact Or.inl h1
        · exact Or.inr (List.mem_cons_of_mem _ h1)
      · intro r hr
        rcases List.mem_cons.mp hr with rfl | h2
        · exact le_trans (not_lt.mp h) hle
        · exact hall r h2

/-- The query returns nothing exactly when no record has status created. -/
lemma latestCreated_eq_none_iff (catalog : List BackupRecord) :
    latestCreated catalog = none ↔ ∀ r ∈ catalog, r.status ≠ Status.created := by
  unfold latestCreated
  cases hf : catalog.filter (fun r => r.status.isCreated) with
  | nil =>
    simp only [List.foldl_nil]
    constructor
    · intro _ r hr hst
      have hrf : r ∈ catalog.filter (fun r => r.status.isCreated) :=
        List.mem_filter.mpr ⟨hr, by simp [hst, Status.isCreated]⟩
      rw [hf] at hrf
      exact absurd hrf (List.not_mem_nil r)
    · intro _
      trivial
  | cons x xs =>
    obtain ⟨c, hfold, _, _, _⟩ := foldl_pickLatest_some xs x
    constructor
    · intro h
      rw [List.foldl_cons] at h
      rw [show pickLatest none x = some x from rfl] at h
      rw [hfold] at h
      exact absurd h (by simp)
    · intro hall
      have hx : x ∈ catalog.filter (fun r => r.status.isCreated) := by
        rw [hf]
        exact List.mem_cons_self x xs
      have hm := List.mem_filter.mp hx
      have hcr : x.status = Status.created :=
        (isCreated_iff x.status).mp (by simpa using hm.2)
      exact absurd hcr (hall x hm.1)

/-- When the query returns a record, that record is in the catalog, has
status created, and its `createdAt` is maximal among created records. -/
lemma latestCreated_some_spec (catalog : List BackupRecord) (b : BackupRecord)
    (h : latestCreated catalog = some b) :
    b ∈ catalog ∧ b.status = Status.created ∧
    ∀ r ∈ catalog, r.status = Status.created → r.createdAt ≤ b.createdAt := by
  unfold latestCreated at h
  cases hf : catalog.filter (fun r => r.status.isCreated) with
  | nil =>
    rw [hf] at h
    simp at h
  | cons x xs =>
    rw [hf, List.foldl_cons, show pickLatest none x = some x from rfl] at h
    obtain ⟨c, hfold, hmem, hle, hall⟩ := foldl_pickLatest_some xs x
    rw [hfold] at h
    have hcb : c = b := by injection h
    subst hcb
    have hbf : c ∈ catalog.filter (fun r => r.status.isCreated) := by
      rw [hf]
      rcases hmem with rfl | hm
      · exact List.mem_cons_self _ _
      · exact List.mem_cons_of_mem _ hm
    have hb := List.mem_filter.mp hbf
    refine ⟨hb.1, (isCreated_iff c.status).mp (by simpa using hb.2), ?_⟩
    intro r hr hst
    have hrf : r ∈ catalog.filter (fun r => r.status.isCreated) :=
      List.mem_filter.mpr ⟨hr, by simp [hst, Status.isCreated]⟩
    rw [hf] at hrf
    rcases List.mem_cons.mp hrf with rfl | hm
    · exact hle
    · exact hall r hm

/-! Claim theorems. -/

/-- C1 counterexample: with a quiet probe and an Unavailable dialog outcome
(zenity cannot be launched), the iteration performs one capture, refuting
the claim that an Unavailable outcome triggers neither capture nor
restore. -/
theorem c1_unavailable_counterexample :
    (monitorTick cfgDefault twUnavailable).captureCalls = 1 ∧
    ¬((monitorTick cfgDefault twUnavailable).captureCalls = 0 ∧
      (monitorTick cfgDefault twUnavailable).restoreCalls = 0) := by
  refine ⟨rfl, fun h => ?_⟩
  have h1 := h.1
  rw [show (monitorTick cfgDefault twUnavailable).captureCalls = 1 from rfl] at h1
  exact absurd h1 (by decide)

/-- C1 (amended): in a quiet iteration, a Yes answer (zenity exit 0)
triggers exactly one restore call and zero capture calls, while every other
dialog outcome — a No answer (non-zero exit) and equally an Unavailable
outcome (spawn failure), which the catch-all of showDialog cannot tell
apart from No — triggers exactly one capture call and zero restore calls. -/
theorem c1_dialog_polarity (cfg : Config) (w : TickWorld)
    (hq : w.probe = some false) :
    (w.dialog = ExecOutcome.exited 0 →
      (monitorTick cfg w).restoreCalls = 1 ∧ (monitorTick cfg w).captureCalls = 0) ∧
    (w.dialog ≠ ExecOutcome.exited 0 →
      (monitorTick cfg w).captureCalls = 1 ∧ (monitorTick cfg w).restoreCalls = 0) := by
  refine ⟨fun hy => ?_, fun hn => ?_⟩
  · simp [monitorTick, hq, hy, showDialog]
  · have hd : showDialog w.dialog = false := by
      cases hdd : w.dialog with
      | exited c =>
        cases c with
        | zero => exact absurd hdd hn
        | succ k => rfl
      | spawnError => rfl
    simp [monitorTick, hq, hd]

/-- C1 witness: concrete quiet iteration with a Yes answer. -/
theorem c1_dialog_polarity_witness :
    (monitorTick cfgDefault twYes).restoreCalls = 1 ∧
    (monitorTick cfgDefault twYes).captureCalls = 0 :=
  (c1_dialog_polarity cfgDefault twYes rfl).1 rfl

/-- C2 counterexample: two created records share createdAt 5; the query
returns the earliest-stored one (identity 1), while the claimed rule (ties
broken by the largest catalog identity) would pick identity 2. -/
theorem c2_tie_break_counterexample :
    latestCreated [recA, recB] = some recA ∧
    latestCreatedSpecRule [recA, recB] = some recB ∧
    recA ≠ recB := by
  refine ⟨rfl, rfl, by decide⟩

/-- C2 (amended): for every catalog state the restore target, when present,
is a record with status created whose created_at is greatest among such
records, and it is absent exactly when no record has status created; ties
on created_at are not broken by catalog identity (the query names no
secondary sort key). -/
theorem c2_restore_selection (catalog : List BackupRecord) :
    (latestCreated catalog = none ↔ ∀ r ∈ catalog, r.status ≠ Status.created) ∧
    ∀ b, latestCreated catalog = some b →
      b ∈ catalog ∧ b.status = Status.created ∧
      ∀ r ∈ catalog, r.status = Status.created → r.createdAt ≤ b.createdAt :=
  ⟨latestCreated_eq_none_iff catalog,
   fun b h => latestCreated_some_spec catalog b h⟩

/-- C2 witness: the single-record catalog selects its created record. -/
theorem c2_restore_selection_witness :
    recA ∈ [recA] ∧ recA.status = Status.created ∧
    ∀ r ∈ [recA], r.status = Status.created → r.createdAt ≤ recA.createdAt :=
  (c2_restore_selection [recA]).2 recA rfl

/-- C3: when the restore subprocess fails after a successful container
stop, no status update is issued, the selected entry keeps status created,
the catalog is unchanged, the container is not started again, and the
error is surfaced. -/
theorem c3_restore_failure_atomicity (w : RestoreWorld)
    (catalog : List BackupRecord) (b : BackupRecord)
    (hb : latestCreated catalog = some b) (hstop : w.stopOk = true)
    (hfail : w.restoreOk = false) :
    (restoreLatestBackup w catalog).statusUpdates = [] ∧
    (restoreLatestBackup w catalog).startCalls = 0 ∧
    (restoreLatestBackup w catalog).finalCatalog = catalog ∧
    (restoreLatestBackup w catalog).result = .error .restoreFailed ∧
    b.status = Status.created := by
  have hcreated := (latestCreated_some_spec catalog b hb).2.1
  simp [restoreLatestBackup, hb, hstop, hfail, hcreated]

/-- C3 witness: concrete failed restore over a one-record catalog. -/
theorem c3_restore_failure_atomicity_witness :
    (restoreLatestBackup rwRestoreFail [recA]).statusUpdates = [] ∧
    (restoreLatestBackup rwRestoreFail [recA]).startCalls = 0 ∧
    (restoreLatestBackup rwRestoreFail [recA]).finalCatalog = [recA] ∧
    (restoreLatestBackup rwRestoreFail [recA]).result = .error .restoreFailed ∧
    recA.status = Status.created :=
  c3_restore_failure_atomicity rwRestoreFail [recA] recA rfl rfl rfl

/-- C4 counterexample: SALES_COLLECTION is set in the environment, yet the
config keeps the hardcoded value "sales", so the option cannot be
overridden by an environment variable. -/
theorem c4_sales_collection_counterexample :
    envSalesOverride.SALES_COLLECTION = some "ventas" ∧
    (mkConfig "/h" envSalesOverride).SALES_COLLECTION = "sales" ∧
    (mkConfig "/h" envSalesOverride).SALES_COLLECTION ≠ "ventas" :=
  ⟨rfl, rfl, by decide⟩

/-- C4 (amended): mongo_uri, container_name, data_volume_name, backup_dir
and check_interval_ms have defaults and are overridden by the environment
variables MONGO_URI, CONTAINER_NAME, DOCKER_VOLUME, BACKUP_DIR and
CHECK_INTERVAL (a set-but-empty variable falls back to the default), while
sales_collection_name and backups_collection_name are fixed constants
"sales" and "backups" with no environment override. -/
theorem c4_config_overridability (home : String) (env : Env) :
    (env.MONGO_URI = none →
      (mkConfig home env).MONGO_URI = "mongodb://localhost:27017/tocgame") ∧
    (env.CONTAINER_NAME = none → (mkConfig home env).CONTAINER_NAME = "mongodb") ∧
    (env.DOCKER_VOLUME = none → (mkConfig home env).DOCKER_VOLUME = "mongo_data") ∧
    (env.BACKUP_DIR = none →
      (mkConfig home env).BACKUP_DIR = pathJoin home "backups/tocgamedb") ∧
    (env.CHECK_INTERVAL = none → (mkConfig home env).CHECK_INTERVAL = some 300000) ∧
    (∀ s, s ≠ "" → env.MONGO_URI = some s → (mkConfig home env).MONGO_URI = s) ∧
    (∀ s, s ≠ "" → env.CONTAINER_NAME = some s →
      (mkConfig home env).CONTAINER_NAME = s) ∧
    (∀ s, s ≠ "" → env.DOCKER_VOLUME = some s →
      (mkConfig home env).DOCKER_VOLUME = s) ∧
    (∀ s, s ≠ "" → env.BACKUP_DIR = some s → (mkConfig home env).BACKUP_DIR = s) ∧
    (∀ s, s ≠ "" → env.CHECK_INTERVAL = some s →
      (mkConfig home env).CHECK_INTERVAL = parseIntJS s) ∧
    (mkConfig home env).SALES_COLLECTION = "sales" ∧
    (mkConfig home env).BACKUPS_COLLECTION = "backups" := by
  refine ⟨fun h => ?_, fun h => ?_, fun h => ?_, fun h => ?_, fun h => ?_,
    fun s hs h => ?_, fun s hs h => ?_, fun s hs h => ?_, fun s hs h => ?_,
    fun s hs h => ?_, rfl, rfl⟩ <;>
    (simp [mkConfig, jsOrStr, h, *]; try decide)

/-- C4 witness: concrete override of MONGO_URI while the sales collection
name stays constant. -/
theorem c4_config_overridability_witness :
    (mkConfig "/h" envAll).MONGO_URI = "mongodb://db:27017/x" ∧
    (mkConfig "/h" envAll).SALES_COLLECTION = "sales" :=
  ⟨(c4_config_overridability "/h" envAll).2.2.2.2.2.1 "mongodb://db:27017/x"
      (by decide) rfl,
   (c4_config_overridability "/h" envAll).2.2.2.2.2.2.2.2.2.2.1⟩

/-- C5: when the dump subprocess or the file write fails, capture fails
with the corresponding CaptureFailed cause, inserts no catalog entry, and
deletes no file. -/
theorem c5_capture_failure (cfg : Config) (w : CaptureWorld) (now : DateTime)
    (t : Int) (h : w.dumpOk = false ∨ w.writeOk = false) :
    ((createVolumeBackup cfg w now t).result = .error .dumpFailed ∨
     (createVolumeBackup cfg w now t).result = .error .writeFailed) ∧
    (createVolumeBackup cfg w now t).inserts = [] ∧
    (createVolumeBackup cfg w now t).deletes = [] := by
  rcases h with h | h
  · simp [createVolumeBackup, h]
  · by_cases hd : w.dumpOk
    · simp [createVolumeBackup, hd, h]
    · simp [createVolumeBackup, hd]

/-- C5 witness: concrete capture in which mongodump fails. -/
theorem c5_capture_failure_witness :
    ((createVolumeBackup cfgDefault cwDumpFail dt0 0).result = .error .dumpFailed ∨
     (createVolumeBackup cfgDefault cwDumpFail dt0 0).result = .error .writeFailed) ∧
    (createVolumeBackup cfgDefault cwDumpFail dt0 0).inserts = [] ∧
    (createVolumeBackup cfgDefault cwDumpFail dt0 0).deletes = [] :=
  c5_capture_failure cfgDefault cwDumpFail dt0 0 (Or.inl rfl)

/-- C6: when no catalog record has status created, restore fails with
NoSnapshotAvailable and no container command (stop, one-shot run, start)
and no status update is issued. -/
theorem c6_empty_catalog_restore (w : RestoreWorld)
    (catalog : List BackupRecord)
    (h : ∀ r ∈ catalog, r.status ≠ Status.created) :
    (restoreLatestBackup w catalog).result = .error .noSnapshot ∧
    (restoreLatestBackup w catalog).stopCalls = 0 ∧
    (restoreLatestBackup w catalog).restoreRunCalls = 0 ∧
    (restoreLatestBackup w catalog).startCalls = 0 ∧
    (restoreLatestBackup w catalog).statusUpdates = [] := by
  have hn : latestCreated catalog = none := (latestCreated_eq_none_iff catalog).mpr h
  simp [restoreLatestBackup, hn]

/-- C6 witness: concrete restore against an empty catalog. -/
theorem c6_empty_catalog_restore_witness :
    (restoreLatestBackup rwOk []).result = .error .noSnapshot ∧
    (restoreLatestBackup rwOk []).stopCalls = 0 ∧
    (restoreLatestBackup rwOk []).restoreRunCalls = 0 ∧
    (restoreLatestBackup rwOk []).startCalls = 0 ∧
    (restoreLatestBackup rwOk []).statusUpdates = [] :=
  c6_empty_catalog_restore rwOk [] (by simp)

/-- C7: when the activity probe reports recent sales, the dialog is not
invoked and neither capture nor restore runs in that iteration. -/
theorem c7_activity_gates_action (cfg : Config) (w : TickWorld)
    (h : w.probe = some true) :
    (monitorTick cfg w).dialogCalls = 0 ∧
    (monitorTick cfg w).captureCalls = 0 ∧
    (monitorTick cfg w).restoreCalls = 0 := by
  simp [monitorTick, h]

/-- C7 witness: concrete active iteration. -/
theorem c7_activity_gates_action_witness :
    (monitorTick cfgDefault twActive).dialogCalls = 0 ∧
    (monitorTick cfgDefault twActive).captureCalls = 0 ∧
    (monitorTick cfgDefault twActive).restoreCalls = 0 :=
  c7_activity_gates_action cfgDefault twActive rfl

/-- C8: when the try block of an iteration throws (probe rejection or a
failed action; the dialog step swallows its own failures), the iteration
sleeps the 10000 ms recovery delay rather than CHECK_INTERVAL, and control
still reaches the next iteration. -/
theorem c8_no_spin_on_failure (cfg : Config) (w : TickWorld)
    (h : tickThrows cfg w = true) :
    (monitorTick cfg w).sleep = some 10000 ∧
    (monitorTick cfg w).continues = true := by
  cases hp : w.probe with
  | none => simp [monitorTick, hp]
  | some b =>
    cases b with
    | true =>
      simp [tickThrows, hp] at h
    | false =>
      cases hdd : showDialog w.dialog <;>
        simp [tickThrows, hp, hdd] at h <;>
        simp [monitorTick, hp, hdd, h]

/-- C8 witness: concrete iteration whose probe rejects. -/
theorem c8_no_spin_on_failure_witness :
    tickThrows cfgDefault twProbeFail = true ∧
    (monitorTick cfgDefault twProbeFail).sleep = some 10000 ∧
    (monitorTick cfgDefault twProbeFail).continues = true :=
  ⟨rfl, c8_no_spin_on_failure cfgDefault twProbeFail rfl⟩

/-- C9 counterexample: with BACKUP_DIR overridden to "d/", a successful
capture returns "d/backup-20240115-120000.gz" (path.join normalizes the
doubled separator), which differs from backup_dir + "/" + filename. -/
theorem c9_path_counterexample :
    (createVolumeBackup cfgTrailingSlash cwOk dt0 99).result =
      .ok "d/backup-20240115-120000.gz" ∧
    "d/backup-20240115-120000.gz" ≠
      cfgTrailingSlash.BACKUP_DIR ++ "/" ++
        ("backup-" ++ formatTimestamp dt0 ++ ".gz") := by
  constructor
  · decide
  · decide

/-- C9 (amended): every successful capture at instant now returns the path
path.join(backup_dir, "backup-" + format(now, "yyyyMMdd-HHmmss") + ".gz") —
which coincides with backup_dir + "/" + filename for directory values
without trailing or repeated separators — and inserts exactly one catalog
record whose filename and path match that file, whose status is created and
whose created_at is the insertion instant. -/
theorem c9_capture_postcondition (cfg : Config) (w : CaptureWorld)
    (now : DateTime) (t : Int) (h1 : w.dumpOk = true) (h2 : w.writeOk = true)
    (h3 : w.duOk = true) (h4 : w.insertOk = true) :
    (createVolumeBackup cfg w now t).result =
      .ok (pathJoin cfg.BACKUP_DIR ("backup-" ++ formatTimestamp now ++ ".gz")) ∧
    ∃ r, (createVolumeBackup cfg w now t).inserts = [r] ∧
      r.filename = "backup-" ++ formatTimestamp now ++ ".gz" ∧
      r.path = pathJoin cfg.BACKUP_DIR ("backup-" ++ formatTimestamp now ++ ".gz") ∧
      r.status = Status.created ∧ r.createdAt = t := by
  refine ⟨?_,
    ⟨⟨"backup-" ++ formatTimestamp now ++ ".gz",
      pathJoin cfg.BACKUP_DIR ("backup-" ++ formatTimestamp now ++ ".gz"),
      t, (parseIntJS (trimJS w.duOut)).getD 0, Status.created⟩, ?_, rfl, rfl, rfl, rfl⟩⟩
  · simp [createVolumeBackup, registerBackup, getFileStats, h1, h2, h3, h4]
  · simp [createVolumeBackup, registerBackup, getFileStats, h1, h2, h3, h4]

/-- C9 witness: concrete successful capture at the injected clock. -/
theorem c9_capture_postcondition_witness :
    (createVolumeBackup cfgDefault cwOk dt0 5).result =
      .ok (pathJoin cfgDefault.BACKUP_DIR ("backup-" ++ formatTimestamp dt0 ++ ".gz")) :=
  (c9_capture_postcondition cfgDefault cwOk dt0 5 rfl rfl rfl rfl).1

/-- C10: a set, non-empty, non-numeric CHECK_INTERVAL does not make startup
fail — config construction still succeeds — but CHECK_INTERVAL becomes NaN
(none), the activity-probe window cutoff Date.now() − CHECK_INTERVAL becomes
an invalid date (none), and a non-throwing iteration hands that NaN to delay
as the inter-tick sleep duration. -/
theorem c10_nan_interval (home : String) (env : Env) (s : String) (nowMs : Int)
    (h1 : env.CHECK_INTERVAL = some s) (h2 : s ≠ "") (h3 : parseIntJS s = none) :
    configParse home env = .ok (mkConfig home env) ∧
    (mkConfig home env).CHECK_INTERVAL = none ∧
    salesCutoff nowMs (mkConfig home env) = none ∧
    ∀ w : TickWorld, w.probe = some true →
      (monitorTick (mkConfig home env) w).sleep = none := by
  have hci : (mkConfig home env).CHECK_INTERVAL = none := by
    simp [mkConfig, jsOrStr, h1, h2, h3]
  refine ⟨rfl, hci, ?_, ?_⟩
  · simp [salesCutoff, hci]
  · intro w hw
    simp [monitorTick, hw, hci]

/-- C10 witness: CHECK_INTERVAL set to "abc". -/
theorem c10_nan_interval_witness :
    (mkConfig "/h" envNaN).CHECK_INTERVAL = none ∧
    salesCutoff 1705320000000 (mkConfig "/h" envNaN) = none :=
  ⟨(c10_nan_interval "/h" envNaN "abc" 1705320000000 rfl (by decide) rfl).2.1,
   (c10_nan_interval "/h" envNaN "abc" 1705320000000 rfl (by decide) rfl).2.2.1⟩

end CFD
